import Mathlib

/-!
Shallow embedding of the finanzonline-ts SOAP transport and
response-interpretation layer (src/client/soap.ts, src/client/session.ts,
src/client/databox.ts, src/errors.ts), together with theorems settling the
behavioural claims about it.

JavaScript values returned by the XML parser are modelled by the inductive
type `JsVal`; `undefined` is `JsVal.jsUndefined`.  JavaScript `number` fields that
may be `NaN` are modelled as `Option Int` with `none` standing for `NaN`
(business return codes are integers).  Async functions become pure functions
from the already-received response data to `Except FonError _`; a thrown
error becomes the `Except.error` branch.
-/

namespace Fon

/-- A raw (non-domain) JavaScript error, as observed by the transport's
`catch` block: its `name` and `message`. -/
structure RawError where
  name : String
  message : String
deriving DecidableEq, Repr

/-- The closed error taxonomy of `src/errors.ts`.  Each TypeScript class
becomes one constructor; `returnCode : Option Int` models the `number`
field with `none` for `NaN`; `NetworkError.cause` keeps the raw error when
the cause was a non-domain error (`undefined` otherwise). -/
inductive FonError where
  | configuration (message : String)
  | network (message : String) (cause : Option RawError)
  | soapFault (message : String) (faultCode : Option String)
  | invalidXml (message : String) (xmlSnippet : String)
  | maintenance (message : String)
  | invalidCredentials (message : String) (returnCode : Option Int)
  | sessionError (message : String) (returnCode : Option Int)
  | sessionExpired (message : String) (returnCode : Option Int)
  | databox (message : String) (returnCode : Option Int)
deriving DecidableEq, Repr

/-- JavaScript ASCII whitespace as matched by `\s` / `trim` on the
strings occurring here. -/
def isJsWhitespace (c : Char) : Bool :=
  c = ' ' || c = '\t' || c = '\n' || c = '\r' || c = '\x0b' || c = '\x0c'

/-- JavaScript `String.prototype.trim` (ASCII whitespace). -/
def jsTrim (s : String) : String :=
  String.mk (((s.toList.dropWhile isJsWhitespace).reverse.dropWhile isJsWhitespace).reverse)

/-- JavaScript `Number(s)` on a string, for the string shapes that occur as
business return codes: after trimming, the empty string coerces to `0`, an
optional sign followed by decimal digits coerces to that integer, and
anything else is `NaN` (`none`).  (Hexadecimal, fractional and exponent
literal forms never occur as return codes and are not modelled.) -/
def jsStrNumber (s : String) : Option Int :=
  let t := jsTrim s
  if t = "" then some 0
  else
    let (sign, digits) : Int × List Char :=
      match t.toList with
      | '-' :: rest => (-1, rest)
      | '+' :: rest => (1, rest)
      | l => (1, l)
    if digits ≠ [] ∧ digits.all Char.isDigit then
      some (sign * (digits.foldl (fun acc c => acc * 10 + (c.toNat - '0'.toNat)) 0 : Nat))
    else none

/-- A raw `rc` field as delivered by the XML parser: either already a
number or a string. -/
inductive RcVal where
  | num (n : Int)
  | str (s : String)
deriving DecidableEq, Repr

namespace Session

/-- `normalizeReturnCode` from `src/client/session.ts`: a string is coerced
with `Number`, a missing value becomes `NaN`, and any non-finite result is
collapsed to `NaN` (`none`). -/
def normalizeReturnCode : Option RcVal → Option Int
  | some (.num n) => some n
  | some (.str s) => jsStrNumber s
  | none => none

end Session

/-- The parsed `login` response payload (`LoginResponse` in
`src/client/session.ts`): optional session id, return code and message. -/
structure LoginResponse where
  id : Option String := none
  rc : Option RcVal := none
  msg : Option String := none
deriving DecidableEq, Repr

/-- `SessionInfo` as returned by a successful login. -/
structure SessionInfo where
  sessionId : String
  returnCode : Option Int
  message : String
deriving DecidableEq, Repr

/-- The return-code interpretation of `SessionClient.login`
(`src/client/session.ts`), applied to an already-parsed response payload.
`message || "…"` is the JavaScript falsy-default, so the empty string is
replaced. -/
def login (r : LoginResponse) : Except FonError SessionInfo :=
  let returnCode := Session.normalizeReturnCode r.rc
  let message := r.msg.getD ""
  let sessionId := r.id.getD ""
  if returnCode = some (-4) then
    .error (.invalidCredentials (if message = "" then "Invalid credentials" else message) returnCode)
  else if returnCode ≠ some 0 then
    .error (.sessionError (if message = "" then "Session login failed" else message) returnCode)
  else if sessionId = "" then
    .error (.sessionError "Session ID missing in response" returnCode)
  else
    .ok { sessionId := sessionId, returnCode := returnCode, message := message }

/-! ## Databox client (`src/client/databox.ts`) -/

/-- One character of the regex class `[A-Za-z0-9+/=\s]` used by
`isLikelyBase64`. -/
def isBase64ClassChar (c : Char) : Bool :=
  (('A' ≤ c && c ≤ 'Z') || ('a' ≤ c && c ≤ 'z') || ('0' ≤ c && c ≤ '9')
    || c = '+' || c = '/' || c = '=' || isJsWhitespace c)

/-- `isLikelyBase64` from `src/client/databox.ts`: trim, reject the empty
remainder, and require every character to be in the base64
alphabet/whitespace/padding class. -/
def isLikelyBase64 (value : String) : Bool :=
  let trimmed := jsTrim value
  if trimmed = "" then false
  else trimmed.toList.all isBase64ClassChar

/-- The value of one base64 alphabet character, `none` for every other
character (whitespace, padding, …). -/
def base64CharVal (c : Char) : Option Nat :=
  if 'A' ≤ c && c ≤ 'Z' then some (c.toNat - 'A'.toNat)
  else if 'a' ≤ c && c ≤ 'z' then some (c.toNat - 'a'.toNat + 26)
  else if '0' ≤ c && c ≤ '9' then some (c.toNat - '0'.toNat + 52)
  else if c = '+' then some 62
  else if c = '/' then some 63
  else none

/-- Decode a group of at most four sextets into bytes (3 bytes for a full
group, 2 for three sextets, 1 for two, 0 for a lone trailing sextet). -/
def base64Group : List Nat → List Nat
  | [a, b, c, d] => [a * 4 + b / 16, (b % 16) * 16 + c / 4, (c % 4) * 64 + d]
  | [a, b, c] => [a * 4 + b / 16, (b % 16) * 16 + c / 4]
  | [a, b] => [a * 4 + b / 16]
  | _ => []

/-- Split a sextet stream into groups of four and decode each. -/
def base64Sextets : List Nat → List Nat
  | a :: b :: c :: d :: rest => base64Group [a, b, c, d] ++ base64Sextets rest
  | rest => base64Group rest

/-- `Buffer.from(value, "base64")` for inputs made of base64 alphabet,
whitespace and padding characters: non-alphabet characters are skipped and
the remaining sextets are decoded in groups of four, a trailing lone sextet
contributing nothing. -/
def base64Decode (value : String) : List Nat :=
  base64Sextets (value.toList.filterMap base64CharVal)

namespace Databox

/-- `normalizeReturnCode` from `src/client/databox.ts` — textually identical
to the one in `src/client/session.ts`. -/
def normalizeReturnCode : Option RcVal → Option Int
  | some (.num n) => some n
  | some (.str s) => jsStrNumber s
  | none => none

end Databox

/-- `FileArt` (`"PDF" | "XML"`). -/
inductive FileArt where
  | PDF
  | XML
deriving DecidableEq, Repr

/-- `ReadStatus` (`"READ" | "UNREAD"`). -/
inductive ReadStatus where
  | READ
  | UNREAD
deriving DecidableEq, Repr

/-- A JavaScript `Date` value as produced by `parseEntry`, kept symbolic:
either `new Date(0)` (the UTC epoch), `new Date(s + "T00:00:00Z")` for a
date-only string `s`, or `new Date(s)` for a timestamp string `s`. -/
inductive JsDateVal where
  | epoch
  | dateOnlyUTC (s : String)
  | timestampOf (s : String)
deriving DecidableEq, Repr

/-- The raw listing record (`DataboxListEntryRaw`): every field optional. -/
structure DataboxListEntryRaw where
  stnr : Option String := none
  name : Option String := none
  anbringen : Option String := none
  zrvon : Option String := none
  zrbis : Option String := none
  datbesch : Option String := none
  erltyp : Option String := none
  fileart : Option String := none
  ts_zust : Option String := none
  applkey : Option String := none
  filebez : Option String := none
  status : Option String := none
deriving DecidableEq, Repr

/-- The normalized `DataboxEntry`. -/
structure DataboxEntry where
  stnr : String
  name : String
  anbringen : String
  zrvon : String
  zrbis : String
  datbesch : JsDateVal
  erltyp : String
  fileart : FileArt
  ts_zust : JsDateVal
  applkey : String
  filebez : String
  status : ReadStatus
deriving DecidableEq, Repr

/-- ASCII `String.prototype.toUpperCase` (field codes here are ASCII). -/
def jsToUpper (s : String) : String :=
  String.mk (s.toList.map Char.toUpper)

/-- `normalizeFileart`: uppercase, `"XML"` stays, everything else collapses
to `"PDF"`. -/
def normalizeFileart (value : Option String) : FileArt :=
  let normalized := jsToUpper (value.getD "")
  if normalized = "XML" then .XML else .PDF

/-- `normalizeStatus`: uppercase, `"READ"` stays, everything else collapses
to `"UNREAD"`. -/
def normalizeStatus (value : Option String) : ReadStatus :=
  let normalized := jsToUpper (value.getD "")
  if normalized = "READ" then .READ else .UNREAD

/-- `parseEntry` from `src/client/databox.ts`: string fields default to the
empty string, the two dates default to `new Date(0)` when the raw string is
absent or empty (JavaScript falsy), file kind and read state are
normalized. -/
def parseEntry (raw : DataboxListEntryRaw) : DataboxEntry :=
  let datbesch :=
    match raw.datbesch with
    | some s => if s = "" then .epoch else JsDateVal.dateOnlyUTC s
    | none => JsDateVal.epoch
  let tsZust :=
    match raw.ts_zust with
    | some s => if s = "" then .epoch else JsDateVal.timestampOf s
    | none => JsDateVal.epoch
  { stnr := raw.stnr.getD ""
    name := raw.name.getD ""
    anbringen := raw.anbringen.getD ""
    zrvon := raw.zrvon.getD ""
    zrbis := raw.zrbis.getD ""
    datbesch := datbesch
    erltyp := raw.erltyp.getD ""
    fileart := normalizeFileart raw.fileart
    ts_zust := tsZust
    applkey := raw.applkey.getD ""
    filebez := raw.filebez.getD ""
    status := normalizeStatus raw.status }

/-- The parsed `getDatabox` response payload (`DataboxListResponse`): the
`result` field is absent, a single raw record, or an array of raw
records. -/
structure DataboxListResponse where
  rc : Option RcVal := none
  msg : Option String := none
  result : Option (DataboxListEntryRaw ⊕ List DataboxListEntryRaw) := none
deriving Repr

/-- The parsed `getDataboxEntry` response payload
(`DataboxEntryResponse`). -/
structure DataboxEntryResponse where
  rc : Option RcVal := none
  msg : Option String := none
  result : Option String := none
deriving DecidableEq, Repr

/-- The response interpretation of `DataboxClient.getDatabox`
(`src/client/databox.ts`): `rc == -1` is session-expired, any other
non-zero (or `NaN`) code is a `DataboxError`, a missing (or otherwise
falsy) `result` is the empty list, a single record is wrapped into a
one-element array, and every raw record is mapped through `parseEntry`. -/
def getDatabox (r : DataboxListResponse) : Except FonError (List DataboxEntry) :=
  let returnCode := Databox.normalizeReturnCode r.rc
  if returnCode = some (-1) then
    .error (.sessionExpired (r.msg.getD "Session expired") returnCode)
  else if returnCode ≠ some 0 then
    .error (.databox (r.msg.getD "Failed to list databox") returnCode)
  else
    match r.result with
    | none => .ok []
    | some (.inl raw) => .ok ([raw].map parseEntry)
    | some (.inr raws) => .ok (raws.map parseEntry)

/-- The response interpretation of `DataboxClient.getDataboxEntry`
(`src/client/databox.ts`): the same return-code mapping as `getDatabox`,
then `!response.result` (absent or empty string) is "Missing document
content", content failing `isLikelyBase64` is "Invalid base64 content", and
otherwise the content is base64-decoded into a byte buffer. -/
def getDataboxEntry (r : DataboxEntryResponse) : Except FonError (List Nat) :=
  let returnCode := Databox.normalizeReturnCode r.rc
  if returnCode = some (-1) then
    .error (.sessionExpired (r.msg.getD "Session expired") returnCode)
  else if returnCode ≠ some 0 then
    .error (.databox (r.msg.getD "Failed to download databox entry") returnCode)
  else
    match r.result with
    | none => .error (.databox "Missing document content" returnCode)
    | some content =>
      if content = "" then .error (.databox "Missing document content" returnCode)
      else if isLikelyBase64 content = false then
        .error (.databox "Invalid base64 content" returnCode)
      else .ok (base64Decode content)

/-! ## Envelope codec (`src/client/soap.ts`) -/

/-- `SOAP_ENV_NS`. -/
def SOAP_ENV_NS : String := "http://schemas.xmlsoap.org/soap/envelope/"

/-- `SOAP_NAMESPACES.session`. -/
def sessionNamespace : String := "https://finanzonline.bmf.gv.at/fon/ws/session"

/-- `SOAP_NAMESPACES.databox`. -/
def databoxNamespace : String := "https://finanzonline.bmf.gv.at/fon/ws/databox"

/-- `value.replace(/c/g, rep)` for a single-character pattern `c`, on the
character list of the string: every occurrence of `c` is replaced by
`rep`. -/
def replaceAllChar (c : Char) (rep : List Char) : List Char → List Char
  | [] => []
  | x :: rest => (if x = c then rep else [x]) ++ replaceAllChar c rep rest

/-- `escapeXml` from `src/client/soap.ts` on character lists: the five
sequential global replacements, `&` first. -/
def escapeXmlChars (l : List Char) : List Char :=
  replaceAllChar '\'' ['&', 'a', 'p', 'o', 's', ';']
    (replaceAllChar '"' ['&', 'q', 'u', 'o', 't', ';']
      (replaceAllChar '>' ['&', 'g', 't', ';']
        (replaceAllChar '<' ['&', 'l', 't', ';']
          (replaceAllChar '&' ['&', 'a', 'm', 'p', ';'] l))))

/-- `escapeXml` on strings. -/
def escapeXml (value : String) : String :=
  String.mk (escapeXmlChars value.toList)

/-- The character-level escape table realized by the five sequential
replacements: each of the five reserved markup characters maps to its
entity, every other character to itself. -/
def escChar (c : Char) : List Char :=
  if c = '&' then ['&', 'a', 'm', 'p', ';']
  else if c = '<' then ['&', 'l', 't', ';']
  else if c = '>' then ['&', 'g', 't', ';']
  else if c = '"' then ['&', 'q', 'u', 'o', 't', ';']
  else if c = '\'' then ['&', 'a', 'p', 'o', 's', ';']
  else [c]

/-- The inverse unescaping of the five reserved markup characters (the
spec's "unescaping", not part of the repository): greedy left-to-right
replacement of each entity by its character. -/
def unescChars : List Char → List Char
  | [] => []
  | c :: rest =>
    if c = '&' then
      if rest.take 4 = ['a', 'm', 'p', ';'] then '&' :: unescChars (rest.drop 4)
      else if rest.take 3 = ['l', 't', ';'] then '<' :: unescChars (rest.drop 3)
      else if rest.take 3 = ['g', 't', ';'] then '>' :: unescChars (rest.drop 3)
      else if rest.take 5 = ['q', 'u', 'o', 't', ';'] then '"' :: unescChars (rest.drop 5)
      else if rest.take 5 = ['a', 'p', 'o', 's', ';'] then '\'' :: unescChars (rest.drop 5)
      else c :: unescChars rest
    else c :: unescChars rest
termination_by l => l.length
decreasing_by all_goals (simp <;> omega)

/-- The inverse unescaping on strings. -/
def unescapeXml (value : String) : String :=
  String.mk (unescChars value.toList)

/-- A JavaScript `Date` restricted to its UTC components, which is all
`toISOString` reads. -/
structure JsDate where
  year : Nat
  month : Nat
  day : Nat
  hour : Nat
  minute : Nat
  second : Nat
  ms : Nat
deriving DecidableEq, Repr

/-- Render `n` in decimal, left-padded with zeros to `width` digits. -/
def padZeros (width n : Nat) : String :=
  let s := toString n
  String.mk (List.replicate (width - s.length) '0') ++ s

/-- `Date.prototype.toISOString`: full ISO-8601 UTC with milliseconds and a
`Z` suffix, rendered from the UTC components. -/
def JsDate.toISOString (d : JsDate) : String :=
  padZeros 4 d.year ++ "-" ++ padZeros 2 d.month ++ "-" ++ padZeros 2 d.day ++ "T" ++
    padZeros 2 d.hour ++ ":" ++ padZeros 2 d.minute ++ ":" ++ padZeros 2 d.second ++ "." ++
    padZeros 3 d.ms ++ "Z"

/-- One value of the `buildSoapEnvelope` parameter record:
`string | number | Date | jsUndefinedined | null` (`absent` covers both
`undefined` and `null`, which are filtered identically). -/
inductive SoapParam where
  | str (s : String)
  | num (n : Int)
  | date (d : JsDate)
  | absent
deriving Repr

/-- Serialize one present parameter to its `<key>…</key>` element; `absent`
parameters are dropped by the filter in `buildSoapEnvelope`. -/
def serializeParam (key : String) : SoapParam → Option String
  | .absent => none
  | .date d => some ("<" ++ key ++ ">" ++ escapeXml d.toISOString ++ "</" ++ key ++ ">")
  | .str s => some ("<" ++ key ++ ">" ++ escapeXml s ++ "</" ++ key ++ ">")
  | .num n => some ("<" ++ key ++ ">" ++ escapeXml (toString n) ++ "</" ++ key ++ ">")

/-- `buildSoapEnvelope` from `src/client/soap.ts`: filter out absent
parameters, serialize the rest in order (`Date` values via `toISOString`,
everything else via `String(...)`, all escaped), and wrap the concatenation
in the fixed envelope/body/operation structure. -/
def buildSoapEnvelope (namespace' operation : String)
    (params : List (String × SoapParam)) : String :=
  let serializedParams :=
    String.join (params.filterMap (fun p => serializeParam p.1 p.2))
  "<?xml version=\"1.0\" encoding=\"UTF-8\"?>" ++
    "<soapenv:Envelope xmlns:soapenv=\"" ++ SOAP_ENV_NS ++ "\" xmlns:ns=\"" ++ namespace' ++ "\">" ++
    "<soapenv:Body>" ++
    "<ns:" ++ operation ++ ">" ++
    serializedParams ++
    "</ns:" ++ operation ++ ">" ++
    "</soapenv:Body>" ++
    "</soapenv:Envelope>"

/-- The four credential fields. -/
structure FinanzonlineCredentials where
  tid : String
  benid : String
  pin : String
  herstellerid : String
deriving DecidableEq, Repr

/-- `DataboxListRequest`: the optional listing filter. -/
structure DataboxListRequest where
  erltyp : Option String := none
  ts_zust_von : Option JsDate := none
  ts_zust_bis : Option JsDate := none
deriving Repr

/-- An optional `Date` request field as a `SoapParam`. -/
def optDateParam : Option JsDate → SoapParam
  | some d => .date d
  | none => .absent

/-- The request document built by `DataboxClient.getDatabox`
(`src/client/databox.ts`): the credential/session fields, `erltyp`
defaulted to the empty string with `??`, and the two window timestamps
passed through (absent ones are dropped by `buildSoapEnvelope`). -/
def getDataboxRequestBody (credentials : FinanzonlineCredentials)
    (sessionId : String) (request : DataboxListRequest) : String :=
  buildSoapEnvelope databoxNamespace "getDatabox"
    [("tid", .str credentials.tid),
     ("benid", .str credentials.benid),
     ("id", .str sessionId),
     ("erltyp", .str (request.erltyp.getD "")),
     ("ts_zust_von", optDateParam request.ts_zust_von),
     ("ts_zust_bis", optDateParam request.ts_zust_bis)]

/-- Is `needle` a contiguous infix of `hay`? (Boolean, executable.) -/
def charsContain (needle : List Char) : List Char → Bool
  | [] => needle.isEmpty
  | c :: rest => needle.isPrefixOf (c :: rest) || charsContain needle rest

/-- Case-insensitive substring test, as performed by a `/…/i` regex on a
literal pattern. -/
def containsCI (hay needle : String) : Bool :=
  charsContain (needle.toList.map Char.toLower) (hay.toList.map Char.toLower)

/-- `isMaintenanceResponse` from `src/client/soap.ts`:
`/<html/i.test(text) && /\/wartung\//i.test(text)`. -/
def isMaintenanceResponse (text : String) : Bool :=
  containsCI text "<html" && containsCI text "/wartung/"

/-! ## Parsed XML values and `parseSoapBody` -/

/-- A JavaScript value as produced by the XML parser (`fast-xml-parser`
with `removeNSPrefix`): strings, numbers, plain objects (insertion-ordered
fields), arrays, or `undefined` (the result of a missing property
access). -/
inductive JsVal where
  | str (s : String)
  | num (n : Int)
  | obj (fields : List (String × JsVal))
  | arr (items : List JsVal)
  | jsUndefined
deriving Repr

/-- JavaScript truthiness of a `JsVal`. -/
def jsTruthy : JsVal → Bool
  | .str s => s ≠ ""
  | .num n => n ≠ 0
  | .obj _ => true
  | .arr _ => true
  | .jsUndefined => false

/-- `typeof v === "object"` (arrays included). -/
def jsIsObjectType : JsVal → Bool
  | .obj _ => true
  | .arr _ => true
  | _ => false

/-- Property access `v?.k` / `v[k]`: on objects the first field named `k`
(or `undefined`), on arrays the numeric index, `undefined` on everything
else. -/
def jsGet : JsVal → String → JsVal
  | .obj fields, k =>
    match fields.find? (fun p => p.1 = k) with
    | some p => p.2
    | none => .jsUndefined
  | .arr items, k =>
    match k.toNat? with
    | some i => (items.get? i).getD .jsUndefined
    | none => .jsUndefined
  | _, _ => .jsUndefined

/-- `Object.keys`, in insertion order (index strings for arrays). -/
def jsKeys : JsVal → List String
  | .obj fields => fields.map Prod.fst
  | .arr items => (List.range items.length).map toString
  | _ => []

/-- The `in` operator: key presence. -/
def jsHasKey (v : JsVal) (k : String) : Bool :=
  (jsKeys v).any (fun key => key = k)

/-- The `faultstring` extraction of `parseSoapBody`: the string value, or
`"SOAP fault"` when it is not a string. -/
def faultMessageOf (fault : JsVal) : String :=
  match jsGet fault "faultstring" with
  | .str s => s
  | _ => "SOAP fault"

/-- The `faultcode` extraction of `parseSoapBody`: the string value when
present, `undefined` (`none`) otherwise. -/
def faultCodeOf (fault : JsVal) : Option String :=
  match jsGet fault "faultcode" with
  | .str s => some s
  | _ => none

/-- `xml.slice(0, 200)`: the diagnostic excerpt. -/
def strExcerpt (xml : String) : String :=
  String.mk (xml.toList.take 200)

/-- `parseSoapBody` from `src/client/soap.ts`, parameterized over the
external XML parser `xmlParse` (the `fast-xml-parser` call, not part of
this repository): a parser exception is rewrapped as `InvalidXmlError`
with the message and a 200-character excerpt; a missing or non-object
`Envelope.Body` is `InvalidXmlError`; a truthy `Fault` member is
`SoapFaultError`; otherwise the payload is looked up under `expectedKey`
when supplied, else under the first non-`Fault` key, a falsy or missing
key being `InvalidXmlError`. -/
def parseSoapBody (xmlParse : String → Except String JsVal) (xml : String)
    (expectedKey : Option String) : Except FonError JsVal :=
  match xmlParse xml with
  | .error msg => .error (.invalidXml msg (strExcerpt xml))
  | .ok parsed =>
    let body := jsGet (jsGet parsed "Envelope") "Body"
    if !(jsTruthy body && jsIsObjectType body) then
      .error (.invalidXml "SOAP response missing Body" (strExcerpt xml))
    else if jsTruthy (jsGet body "Fault") then
      .error (.soapFault (faultMessageOf (jsGet body "Fault")) (faultCodeOf (jsGet body "Fault")))
    else
      let candidateKeys := (jsKeys body).filter (fun key => key ≠ "Fault")
      let responseKey : Option String :=
        match expectedKey with
        | some k => some k
        | none => candidateKeys.head?
      match responseKey with
      | none => .error (.invalidXml "SOAP response missing expected payload" (strExcerpt xml))
      | some k =>
        if k = "" || !(jsHasKey body k) then
          .error (.invalidXml "SOAP response missing expected payload" (strExcerpt xml))
        else
          .ok (jsGet body k)

/-! ## Transport (`sendSoapRequest`) -/

/-- The outcome of the underlying network call (`fetcher` + body read): a
delivered response (`ok` flag, status, body text), or a raw JavaScript
error thrown by the call itself (connection refused, DNS failure, abort). -/
inductive FetchOutcome where
  | response (ok : Bool) (status : Nat) (text : String)
  | thrown (e : RawError)
deriving Repr

/-- The body of `sendSoapRequest`'s `try` block: a thrown value is either
one of the domain's typed errors (`inl`) raised by steps 1–3 or the raw
error of the network call (`inr`). -/
def sendTry (xmlParse : String → Except String JsVal) :
    FetchOutcome → Except (FonError ⊕ RawError) JsVal
  | .thrown e => .error (.inr e)
  | .response ok status text =>
    if isMaintenanceResponse text then
      .error (.inl (.maintenance "FinanzOnline is in maintenance mode."))
    else if !ok then
      .error (.inl (.network ("SOAP request failed with status " ++ toString status) none))
    else
      match parseSoapBody xmlParse text none with
      | .ok v => .ok v
      | .error e => .error (.inl e)

/-- The `catch` block of `sendSoapRequest`: `MaintenanceError`,
`InvalidXmlError`, `SoapFaultError` and `NetworkError` are re-raised
unchanged; a raw error named `AbortError` becomes the timeout
`NetworkError` carrying it as cause; every other raw error is wrapped as
`NetworkError "SOAP request failed"` with the cause.  (The final fallthrough
for a domain error of another kind is unreachable from `sendTry`, which
only raises the four kinds above.) -/
def sendCatch : FonError ⊕ RawError → FonError
  | .inl (.maintenance m) => .maintenance m
  | .inl (.invalidXml m s) => .invalidXml m s
  | .inl (.soapFault m c) => .soapFault m c
  | .inl (.network m c) => .network m c
  | .inl _ => .network "SOAP request failed" none
  | .inr e =>
    if e.name = "AbortError" then .network "SOAP request timed out" (some e)
    else .network "SOAP request failed" (some e)

/-- `sendSoapRequest` from `src/client/soap.ts` as a pure function of the
network outcome: the `try` body classified in order (maintenance page,
non-ok HTTP status, envelope parsing), with every thrown value passed
through the `catch` translation. -/
def sendSoapRequest (xmlParse : String → Except String JsVal)
    (outcome : FetchOutcome) : Except FonError JsVal :=
  match sendTry xmlParse outcome with
  | .ok v => .ok v
  | .error e => .error (sendCatch e)

/-! ## Theorems -/

lemma replaceAllChar_append (c : Char) (rep a b : List Char) :
    replaceAllChar c rep (a ++ b) = replaceAllChar c rep a ++ replaceAllChar c rep b := by
  induction a with
  | nil => simp [replaceAllChar]
  | cons x rest ih => simp [replaceAllChar, ih]

lemma escapeXmlChars_cons (x : Char) (l : List Char) :
    escapeXmlChars (x :: l) = escChar x ++ escapeXmlChars l := by
  by_cases h1 : x = '&'
  · subst h1; simp [escapeXmlChars, escChar, replaceAllChar, replaceAllChar_append]
  · by_cases h2 : x = '<'
    · subst h2; simp [escapeXmlChars, escChar, replaceAllChar, replaceAllChar_append]
    · by_cases h3 : x = '>'
      · subst h3; simp [escapeXmlChars, escChar, replaceAllChar, replaceAllChar_append]
      · by_cases h4 : x = '"'
        · subst h4; simp [escapeXmlChars, escChar, replaceAllChar, replaceAllChar_append]
        · by_cases h5 : x = '\''
          · subst h5; simp [escapeXmlChars, escChar, replaceAllChar, replaceAllChar_append]
          · simp [escapeXmlChars, escChar, replaceAllChar, replaceAllChar_append, h1, h2, h3, h4, h5]

lemma unesc_escape_roundtrip (l : List Char) : unescChars (escapeXmlChars l) = l := by
  induction l with
  | nil => simp [escapeXmlChars, replaceAllChar, unescChars]
  | cons x rest ih =>
    rw [escapeXmlChars_cons]
    by_cases h1 : x = '&'
    · subst h1; simp [escChar, unescChars, ih]
    · by_cases h2 : x = '<'
      · subst h2; simp [escChar, unescChars, ih]
      · by_cases h3 : x = '>'
        · subst h3; simp [escChar, unescChars, ih]
        · by_cases h4 : x = '"'
          · subst h4; simp [escChar, unescChars, ih]
          · by_cases h5 : x = '\''
            · subst h5; simp [escChar, unescChars, ih]
            · simp only [escChar, h1, h2, h3, h4, h5, if_false, List.singleton_append]
              simp [unescChars, h1, ih]

/-- C8: for every input string, the envelope builder's escaping of the five
reserved markup characters (`& < > " '`) is round-trip-safe: applying the
inverse unescaping to the escaped output recovers the original string
exactly. -/
theorem escapeXml_unescape_roundtrip (s : String) : unescapeXml (escapeXml s) = s := by
  show String.mk (unescChars (escapeXmlChars s.toList)) = s
  rw [unesc_escape_roundtrip]
  exact rfl

/-- C1 (amended): for every authenticate (login) response the outcome
follows the return-code table: coerced code `-4` fails with
invalid-credentials; any other non-zero value (including the non-numeric
sentinel `none`) fails with a session-class error carrying the coerced
code; code `0` with an absent or empty token fails with a session-class
error whose message is `"Session ID missing in response"`; code `0` with a
token present returns the record `{token, returnCode, message}`. -/
theorem login_return_code_table (r : LoginResponse) :
    (Session.normalizeReturnCode r.rc = some (-4) →
      login r = .error (.invalidCredentials
        (if r.msg.getD "" = "" then "Invalid credentials" else r.msg.getD "") (some (-4)))) ∧
    (Session.normalizeReturnCode r.rc ≠ some 0 → Session.normalizeReturnCode r.rc ≠ some (-4) →
      login r = .error (.sessionError
        (if r.msg.getD "" = "" then "Session login failed" else r.msg.getD "")
        (Session.normalizeReturnCode r.rc))) ∧
    (Session.normalizeReturnCode r.rc = some 0 → r.id.getD "" = "" →
      login r = .error (.sessionError "Session ID missing in response" (some 0))) ∧
    (Session.normalizeReturnCode r.rc = some 0 → r.id.getD "" ≠ "" →
      login r = .ok { sessionId := r.id.getD "", returnCode := some 0, message := r.msg.getD "" }) := by
  refine ⟨?_, ?_, ?_, ?_⟩
  · intro h; simp [login, h]
  · intro h0 h4; simp [login, h0, h4]
  · intro h0 hid; simp [login, h0, hid]
  · intro h0 hid; simp [login, h0, hid]

/-- Witness for C1: the four rows of the table at concrete responses. -/
theorem login_return_code_table_witness :
    login { id := some "T", rc := some (.num (-4)), msg := none } =
      .error (.invalidCredentials "Invalid credentials" (some (-4))) ∧
    login { id := some "T", rc := some (.str "x"), msg := none } =
      .error (.sessionError "Session login failed" none) ∧
    login { id := none, rc := some (.num 0), msg := none } =
      .error (.sessionError "Session ID missing in response" (some 0)) ∧
    login { id := some "A", rc := some (.num 0), msg := some "ok" } =
      .ok { sessionId := "A", returnCode := some 0, message := "ok" } := by
  refine ⟨?_, ?_, ?_, ?_⟩
  · exact (login_return_code_table { id := some "T", rc := some (.num (-4)), msg := none }).1 (by decide)
  · exact (login_return_code_table { id := some "T", rc := some (.str "x"), msg := none }).2.1
      (by decide) (by decide)
  · exact (login_return_code_table { id := none, rc := some (.num 0), msg := none }).2.2.1
      (by decide) (by decide)
  · exact (login_return_code_table { id := some "A", rc := some (.num 0), msg := some "ok" }).2.2.2
      (by decide) (by decide)

/-- Counterexample for C1 as stated: the missing-token error message is
`"Session ID missing in response"`, which differs from the claimed exact
text `"session id missing in response"`. -/
theorem login_missing_id_message_counterexample :
    login { id := none, rc := some (.num 0), msg := none } =
      .error (.sessionError "Session ID missing in response" (some 0)) ∧
    "Session ID missing in response" ≠ "session id missing in response" :=
  ⟨rfl, by decide⟩

/-- C9: the return-code coercion maps the empty string to `0`: a login
response whose `rc` is the empty string and whose session id is non-empty
succeeds with `returnCode` 0, and the databox client applies the same
coercion (its `normalizeReturnCode` agrees with the session one on every
input). -/
theorem empty_string_rc_coerces_to_zero :
    jsStrNumber "" = some 0 ∧
    Session.normalizeReturnCode (some (.str "")) = some 0 ∧
    (∀ v, Databox.normalizeReturnCode v = Session.normalizeReturnCode v) ∧
    (∀ r : LoginResponse, r.rc = some (.str "") → r.id.getD "" ≠ "" →
      login r = .ok { sessionId := r.id.getD "", returnCode := some 0, message := r.msg.getD "" }) := by
  refine ⟨by decide, by decide, ?_, ?_⟩
  · intro v
    cases v with
    | none => rfl
    | some rv => cases rv <;> rfl
  · intro r hrc hid
    have h0 : Session.normalizeReturnCode r.rc = some 0 := by rw [hrc]; decide
    simp [login, h0, hid]

/-- Witness for C9 at a concrete response. -/
theorem empty_string_rc_coerces_to_zero_witness :
    login { id := some "S", rc := some (.str ""), msg := none } =
      .ok { sessionId := "S", returnCode := some 0, message := "" } :=
  empty_string_rc_coerces_to_zero.2.2.2 { id := some "S", rc := some (.str ""), msg := none }
    rfl (by decide)

lemma mem_dropWhile_of_not (p : Char → Bool) (l : List Char) (x : Char)
    (hx : x ∈ l) (hpx : p x = false) : x ∈ l.dropWhile p := by
  induction l with
  | nil => cases hx
  | cons a t ih =>
    by_cases hpa : p a = true
    · rw [List.dropWhile_cons_of_pos hpa]
      rcases List.mem_cons.mp hx with h | h
      · subst h; rw [hpa] at hpx; cases hpx
      · exact ih h
    · rw [List.dropWhile_cons_of_neg hpa]
      exact hx

lemma mem_jsTrim_of_not_ws (content : String) (x : Char)
    (hx : x ∈ content.toList) (hws : isJsWhitespace x = false) :
    x ∈ (jsTrim content).toList := by
  show x ∈ ((content.toList.dropWhile isJsWhitespace).reverse.dropWhile isJsWhitespace).reverse
  rw [List.mem_reverse]
  apply mem_dropWhile_of_not _ _ _ _ hws
  rw [List.mem_reverse]
  exact mem_dropWhile_of_not _ _ _ hx hws

lemma mem_of_mem_jsTrim (content : String) (x : Char)
    (hx : x ∈ (jsTrim content).toList) : x ∈ content.toList := by
  have hx' : x ∈ ((content.toList.dropWhile isJsWhitespace).reverse.dropWhile isJsWhitespace).reverse := hx
  rw [List.mem_reverse] at hx'
  have h1 := (List.dropWhile_sublist (l := (content.toList.dropWhile isJsWhitespace).reverse)
    (p := isJsWhitespace)).subset hx'
  rw [List.mem_reverse] at h1
  exact (List.dropWhile_sublist _).subset h1

lemma isLikelyBase64_of_composed (content : String)
    (hall : content.toList.all isBase64ClassChar = true)
    (hne : jsTrim content ≠ "") : isLikelyBase64 content = true := by
  unfold isLikelyBase64
  rw [if_neg hne]
  apply List.all_eq_true.mpr
  intro x hx
  exact List.all_eq_true.mp hall x (mem_of_mem_jsTrim content x hx)

lemma isLikelyBase64_eq_false_of_bad_char (content : String)
    (hall : content.toList.all isBase64ClassChar = false) :
    isLikelyBase64 content = false := by
  have hex : ¬ ∀ x ∈ content.toList, isBase64ClassChar x = true := by
    intro hc
    rw [← List.all_eq_true] at hc
    rw [hc] at hall
    cases hall
  push_neg at hex
  obtain ⟨c, hcmem, hcne⟩ := hex
  have hcfalse : isBase64ClassChar c = false := by
    cases h : isBase64ClassChar c
    · rfl
    · exact absurd h hcne
  have hws : isJsWhitespace c = false := by
    cases h : isJsWhitespace c
    · rfl
    · exfalso
      have : isBase64ClassChar c = true := by
        unfold isBase64ClassChar
        rw [h]
        simp
      rw [this] at hcfalse; cases hcfalse
  by_cases ht : jsTrim content = ""
  · simp [isLikelyBase64, ht]
  · unfold isLikelyBase64
    rw [if_neg ht]
    apply Bool.eq_false_iff.mpr
    intro htrue
    have := List.all_eq_true.mp htrue c (mem_jsTrim_of_not_ws content c hcmem hws)
    rw [this] at hcfalse; cases hcfalse

/-- C2 (amended): list and fetch responses map coerced code `-1` to
session-expired and any other non-zero or non-numeric code to the
document-service (Databox) error carrying the code; on fetch with code `0`
an absent content field fails with `"Missing document content"`, content
with a character outside the base64 alphabet/whitespace/padding class —
or content that is empty after trimming — fails with
`"Invalid base64 content"`, and otherwise the content is base64-decoded
and returned as a byte buffer. -/
theorem databox_return_code_and_content_rules
    (rl : DataboxListResponse) (re : DataboxEntryResponse) :
    (Databox.normalizeReturnCode rl.rc = some (-1) →
      getDatabox rl = .error (.sessionExpired (rl.msg.getD "Session expired") (some (-1)))) ∧
    (Databox.normalizeReturnCode rl.rc ≠ some 0 → Databox.normalizeReturnCode rl.rc ≠ some (-1) →
      getDatabox rl = .error (.databox (rl.msg.getD "Failed to list databox")
        (Databox.normalizeReturnCode rl.rc))) ∧
    (Databox.normalizeReturnCode re.rc = some (-1) →
      getDataboxEntry re = .error (.sessionExpired (re.msg.getD "Session expired") (some (-1)))) ∧
    (Databox.normalizeReturnCode re.rc ≠ some 0 → Databox.normalizeReturnCode re.rc ≠ some (-1) →
      getDataboxEntry re = .error (.databox (re.msg.getD "Failed to download databox entry")
        (Databox.normalizeReturnCode re.rc))) ∧
    (Databox.normalizeReturnCode re.rc = some 0 → (re.result = none ∨ re.result = some "") →
      getDataboxEntry re = .error (.databox "Missing document content" (some 0))) ∧
    (Databox.normalizeReturnCode re.rc = some 0 → ∀ content, re.result = some content →
      content ≠ "" → content.toList.all isBase64ClassChar = false →
      getDataboxEntry re = .error (.databox "Invalid base64 content" (some 0))) ∧
    (Databox.normalizeReturnCode re.rc = some 0 → ∀ content, re.result = some content →
      content ≠ "" → jsTrim content = "" →
      getDataboxEntry re = .error (.databox "Invalid base64 content" (some 0))) ∧
    (Databox.normalizeReturnCode re.rc = some 0 → ∀ content, re.result = some content →
      content.toList.all isBase64ClassChar = true → jsTrim content ≠ "" →
      getDataboxEntry re = .ok (base64Decode content)) := by
  refine ⟨?_, ?_, ?_, ?_, ?_, ?_, ?_, ?_⟩
  · intro h; simp [getDatabox, h]
  · intro h0 h1; simp [getDatabox, h0, h1]
  · intro h; simp [getDataboxEntry, h]
  · intro h0 h1; simp [getDataboxEntry, h0, h1]
  · intro h0 hres
    rcases hres with h | h <;> simp [getDataboxEntry, h0, h]
  · intro h0 content hres hne hbad
    simp [getDataboxEntry, h0, hres, hne, isLikelyBase64_eq_false_of_bad_char content hbad]
  · intro h0 content hres hne htrim
    have : isLikelyBase64 content = false := by simp [isLikelyBase64, htrim]
    simp [getDataboxEntry, h0, hres, hne, this]
  · intro h0 content hres hall htrim
    have hne : content ≠ "" := by
      intro hc; subst hc; exact htrim rfl
    simp [getDataboxEntry, h0, hres, hne, isLikelyBase64_of_composed content hall htrim]

/-- Witness for C2: each branch at a concrete response. -/
theorem databox_return_code_and_content_rules_witness :
    getDatabox { rc := some (.num (-1)), msg := some "gone", result := none } =
      .error (.sessionExpired "gone" (some (-1))) ∧
    getDatabox { rc := some (.str "7"), msg := none, result := none } =
      .error (.databox "Failed to list databox" (some 7)) ∧
    getDataboxEntry { rc := some (.num (-1)), msg := none, result := some "x" } =
      .error (.sessionExpired "Session expired" (some (-1))) ∧
    getDataboxEntry { rc := some (.str "oops"), msg := none, result := some "x" } =
      .error (.databox "Failed to download databox entry" none) ∧
    getDataboxEntry { rc := some (.num 0), msg := none, result := none } =
      .error (.databox "Missing document content" (some 0)) ∧
    getDataboxEntry { rc := some (.num 0), msg := none, result := some "a_b" } =
      .error (.databox "Invalid base64 content" (some 0)) ∧
    getDataboxEntry { rc := some (.num 0), msg := none, result := some "  " } =
      .error (.databox "Invalid base64 content" (some 0)) ∧
    getDataboxEntry { rc := some (.num 0), msg := none, result := some "aGk=" } =
      .ok (base64Decode "aGk=") := by
  refine ⟨?_, ?_, ?_, ?_, ?_, ?_, ?_, ?_⟩
  · exact (databox_return_code_and_content_rules
      { rc := some (.num (-1)), msg := some "gone", result := none }
      { rc := none, msg := none, result := none }).1 (by decide)
  · exact (databox_return_code_and_content_rules
      { rc := some (.str "7"), msg := none, result := none }
      { rc := none, msg := none, result := none }).2.1 (by decide) (by decide)
  · exact (databox_return_code_and_content_rules
      { rc := none, msg := none, result := none }
      { rc := some (.num (-1)), msg := none, result := some "x" }).2.2.1 (by decide)
  · exact (databox_return_code_and_content_rules
      { rc := none, msg := none, result := none }
      { rc := some (.str "oops"), msg := none, result := some "x" }).2.2.2.1
      (by decide) (by decide)
  · exact (databox_return_code_and_content_rules
      { rc := none, msg := none, result := none }
      { rc := some (.num 0), msg := none, result := none }).2.2.2.2.1 (by decide) (Or.inl rfl)
  · exact (databox_return_code_and_content_rules
      { rc := none, msg := none, result := none }
      { rc := some (.num 0), msg := none, result := some "a_b" }).2.2.2.2.2.1
      (by decide) "a_b" rfl (by decide) (by decide)
  · exact (databox_return_code_and_content_rules
      { rc := none, msg := none, result := none }
      { rc := some (.num 0), msg := none, result := some "  " }).2.2.2.2.2.2.1
      (by decide) "  " rfl (by decide) (by decide)
  · exact (databox_return_code_and_content_rules
      { rc := none, msg := none, result := none }
      { rc := some (.num 0), msg := none, result := some "aGk=" }).2.2.2.2.2.2.2
      (by decide) "aGk=" rfl (by decide) (by decide)

/-- Counterexample for C2 as stated: the content `" "` is composed only of
characters from the allowed class, yet fetch fails with
`"Invalid base64 content"` instead of decoding it. -/
theorem databox_whitespace_content_counterexample :
    ((" " : String).toList.all isBase64ClassChar = true) ∧
    (" " : String) ≠ "" ∧
    getDataboxEntry { rc := some (.num 0), msg := none, result := some " " } =
      .error (.databox "Invalid base64 content" (some 0)) :=
  ⟨by decide, by decide, rfl⟩

/-- C7: for every successful listing response an absent payload yields the
empty sequence, a single raw object a one-element sequence, and an
N-element sequence N mapped entries in the same order; in every mapped
entry an absent string field becomes the empty string, absent decision
date and delivery timestamp default to the UTC epoch (`new Date(0)`), and
an unrecognized or missing file-kind (resp. read-state) collapses to PDF
(resp. unread). -/
theorem listing_normalization (r : DataboxListResponse) (raw : DataboxListEntryRaw)
    (h : Databox.normalizeReturnCode r.rc = some 0) :
    getDatabox { r with result := none } = .ok [] ∧
    (∀ raw0, getDatabox { r with result := some (.inl raw0) } = .ok [parseEntry raw0]) ∧
    (∀ raws, getDatabox { r with result := some (.inr raws) } = .ok (raws.map parseEntry) ∧
      (raws.map parseEntry).length = raws.length ∧
      (∀ i : Nat, (raws.map parseEntry)[i]? = (raws[i]?).map parseEntry)) ∧
    (parseEntry { raw with stnr := none }).stnr = "" ∧
    (parseEntry { raw with name := none }).name = "" ∧
    (parseEntry { raw with anbringen := none }).anbringen = "" ∧
    (parseEntry { raw with zrvon := none }).zrvon = "" ∧
    (parseEntry { raw with zrbis := none }).zrbis = "" ∧
    (parseEntry { raw with erltyp := none }).erltyp = "" ∧
    (parseEntry { raw with applkey := none }).applkey = "" ∧
    (parseEntry { raw with filebez := none }).filebez = "" ∧
    (parseEntry { raw with datbesch := none }).datbesch = .epoch ∧
    (parseEntry { raw with ts_zust := none }).ts_zust = .epoch ∧
    (parseEntry { raw with fileart := none }).fileart = .PDF ∧
    (∀ s, jsToUpper s ≠ "XML" → (parseEntry { raw with fileart := some s }).fileart = .PDF) ∧
    (parseEntry { raw with status := none }).status = .UNREAD ∧
    (∀ s, jsToUpper s ≠ "READ" → (parseEntry { raw with status := some s }).status = .UNREAD) := by
  refine ⟨?_, ?_, ?_, ?_, ?_, ?_, ?_, ?_, ?_, ?_, ?_, ?_, ?_, ?_, ?_, ?_, ?_⟩
  · simp [getDatabox, h]
  · intro raw0; simp [getDatabox, h]
  · intro raws
    refine ⟨by simp [getDatabox, h], by simp, ?_⟩
    intro i
    simp [List.getElem?_map]
  · simp [parseEntry]
  · simp [parseEntry]
  · simp [parseEntry]
  · simp [parseEntry]
  · simp [parseEntry]
  · simp [parseEntry]
  · simp [parseEntry]
  · simp [parseEntry]
  · simp [parseEntry]
  · simp [parseEntry]
  · simp [parseEntry, normalizeFileart]; decide
  · intro s hs; simp [parseEntry, normalizeFileart, hs]
  · simp [parseEntry, normalizeStatus]; decide
  · intro s hs; simp [parseEntry, normalizeStatus, hs]

/-- Witness for C7 at concrete responses and raw records. -/
theorem listing_normalization_witness :
    getDatabox
      { rc := some (.num 0), msg := none, result := none } = .ok [] ∧
    getDatabox
      { rc := some (.num 0), msg := none,
        result := some (.inl ({} : DataboxListEntryRaw)) } =
      .ok [parseEntry ({} : DataboxListEntryRaw)] ∧
    getDatabox
      { rc := some (.num 0), msg := none,
        result := some (.inr [{ applkey := some "AAA111" }, { fileart := some "xml" }]) } =
      .ok [parseEntry { applkey := some "AAA111" }, parseEntry { fileart := some "xml" }] ∧
    (parseEntry { stnr := none }).stnr = "" ∧
    (parseEntry { fileart := some "weird" }).fileart = .PDF ∧
    (parseEntry { status := some "weird" }).status = .UNREAD := by
  have h := listing_normalization { rc := some (.num 0), msg := none, result := none }
    ({} : DataboxListEntryRaw) (by decide)
  refine ⟨h.1, h.2.1 ({} : DataboxListEntryRaw), ?_, h.2.2.2.1, ?_, ?_⟩
  · exact (h.2.2.1 [{ applkey := some "AAA111" }, { fileart := some "xml" }]).1
  · exact h.2.2.2.2.2.2.2.2.2.2.2.2.2.2.1 "weird" (by decide)
  · exact h.2.2.2.2.2.2.2.2.2.2.2.2.2.2.2.2 "weird" (by decide)

/-- C4 (amended): for every list request the built envelope omits the
delivery-window elements whose value is absent, serializes the absent
type-code filter as an empty element, and serializes present window
timestamps via toISOString. -/
theorem envelope_filter_serialization (c : FinanzonlineCredentials) (sid : String)
    (erl : Option String) (d d2 : JsDate) :
    getDataboxRequestBody c sid { erltyp := erl, ts_zust_von := none, ts_zust_bis := none } =
      buildSoapEnvelope databoxNamespace "getDatabox"
        [("tid", .str c.tid), ("benid", .str c.benid), ("id", .str sid),
         ("erltyp", .str (erl.getD ""))] ∧
    getDataboxRequestBody c sid { erltyp := erl, ts_zust_von := some d, ts_zust_bis := some d2 } =
      buildSoapEnvelope databoxNamespace "getDatabox"
        [("tid", .str c.tid), ("benid", .str c.benid), ("id", .str sid),
         ("erltyp", .str (erl.getD "")), ("ts_zust_von", .date d), ("ts_zust_bis", .date d2)] ∧
    serializeParam "ts_zust_von" (.date d) =
      some ("<ts_zust_von>" ++ escapeXml d.toISOString ++ "</ts_zust_von>") ∧
    (∃ dateTimePart, d.toISOString = dateTimePart ++ "." ++ padZeros 3 d.ms ++ "Z" ∧
      3 ≤ (padZeros 3 d.ms).length) := by
  refine ⟨rfl, ?_, ?_, ?_⟩
  · simp [getDataboxRequestBody, optDateParam]
  · show (some ("<" ++ "ts_zust_von" ++ ">" ++ escapeXml d.toISOString ++ "</" ++ "ts_zust_von" ++ ">") :
        Option String) = some ("<ts_zust_von>" ++ escapeXml d.toISOString ++ "</ts_zust_von>")
    simp [String.append_assoc]
  refine ⟨padZeros 4 d.year ++ "-" ++ padZeros 2 d.month ++ "-" ++ padZeros 2 d.day ++ "T" ++
    padZeros 2 d.hour ++ ":" ++ padZeros 2 d.minute ++ ":" ++ padZeros 2 d.second, ?_, ?_⟩
  · simp [JsDate.toISOString, String.append_assoc]
  · show 3 ≤ (String.mk (List.replicate (3 - (toString d.ms).length) '0') ++ toString d.ms).length
    rw [String.length_append]
    show 3 ≤ (List.replicate (3 - (toString d.ms).length) '0').length + (toString d.ms).length
    rw [List.length_replicate]
    omega

set_option maxRecDepth 10000 in
set_option maxHeartbeats 2000000 in
/-- Counterexample for C4 as stated: with an entirely absent filter the
built request document still contains an (empty) `<erltyp></erltyp>`
element, while the absent window fields are omitted. -/
theorem envelope_absent_erltyp_counterexample :
    charsContain "<erltyp></erltyp>".toList
      (getDataboxRequestBody ⟨"T", "B", "P", "H"⟩ "SID" {}).toList = true ∧
    charsContain "ts_zust_von".toList
      (getDataboxRequestBody ⟨"T", "B", "P", "H"⟩ "SID" {}).toList = false :=
  ⟨by decide, by decide⟩

lemma parseSoapBody_error_kinds (p : String → Except String JsVal) (xml : String)
    (ek : Option String) (e : FonError) (h : parseSoapBody p xml ek = .error e) :
    (∃ m c, e = .soapFault m c) ∨ (∃ m, e = .invalidXml m (strExcerpt xml)) := by
  unfold parseSoapBody at h
  cases hp : p xml with
  | error msg =>
    rw [hp] at h
    injection h with h1
    right
    exact ⟨msg, h1.symm⟩
  | ok parsed =>
    rw [hp] at h
    simp only [] at h
    split at h
    · injection h with h1
      right
      exact ⟨"SOAP response missing Body", h1.symm⟩
    · split at h
      · injection h with h1
        left
        exact ⟨_, _, h1.symm⟩
      · split at h
        · injection h with h1
          right
          exact ⟨"SOAP response missing expected payload", h1.symm⟩
        · split at h
          · injection h with h1
            right
            exact ⟨"SOAP response missing expected payload", h1.symm⟩
          · exact Except.noConfusion h

/-- C10: for every input and every behaviour of the external XML parser,
`parseSoapBody` either returns a payload or fails with the protocol-fault
or the malformed-response error; a parser exception is rewrapped as a
malformed-response error carrying an excerpt of at most 200 characters of
the input. -/
theorem parse_typed_errors (p : String → Except String JsVal) (xml : String) (ek : Option String) :
    ((∃ v, parseSoapBody p xml ek = .ok v) ∨
     (∃ m c, parseSoapBody p xml ek = .error (.soapFault m c)) ∨
     (∃ m, parseSoapBody p xml ek = .error (.invalidXml m (strExcerpt xml)))) ∧
    (∀ msg, p xml = .error msg →
      parseSoapBody p xml ek = .error (.invalidXml msg (strExcerpt xml))) ∧
    (strExcerpt xml).length ≤ 200 := by
  refine ⟨?_, ?_, ?_⟩
  · cases hr : parseSoapBody p xml ek with
    | ok v => exact Or.inl ⟨v, rfl⟩
    | error e =>
      rcases parseSoapBody_error_kinds p xml ek e hr with ⟨m, c, he⟩ | ⟨m, he⟩
      · exact Or.inr (Or.inl ⟨m, c, by rw [he]⟩)
      · exact Or.inr (Or.inr ⟨m, by rw [he]⟩)
  · intro msg hmsg
    unfold parseSoapBody
    rw [hmsg]
  · show (xml.toList.take 200).length ≤ 200
    exact List.length_take_le _ _

/-- Witness for C10: a crashing parser is rewrapped with the excerpt. -/
theorem parse_typed_errors_witness :
    parseSoapBody (fun _ => .error "boom") "0123" none = .error (.invalidXml "boom" "0123") :=
  (parse_typed_errors (fun _ => .error "boom") "0123" none).2.1 "boom" rfl

/-- C3: for every response body, classification happens in a fixed order:
a maintenance-page body fails with the maintenance error regardless of the
HTTP status and independently of the envelope parser (parsing is never
attempted); otherwise a failing HTTP status yields a network-class error
describing the status; otherwise the body is handed to the envelope parser
and its result or typed failure is returned unchanged. -/
theorem send_classification_order (p p2 : String → Except String JsVal)
    (ok : Bool) (status : Nat) (text : String) :
    (isMaintenanceResponse text = true →
      sendSoapRequest p (.response ok status text) =
        .error (.maintenance "FinanzOnline is in maintenance mode.") ∧
      sendSoapRequest p (.response ok status text) =
        sendSoapRequest p2 (.response ok status text)) ∧
    (isMaintenanceResponse text = false → ok = false →
      sendSoapRequest p (.response ok status text) =
        .error (.network ("SOAP request failed with status " ++ toString status) none)) ∧
    (isMaintenanceResponse text = false → ok = true →
      sendSoapRequest p (.response ok status text) = parseSoapBody p text none) := by
  refine ⟨?_, ?_, ?_⟩
  · intro hm
    constructor
    · simp [sendSoapRequest, sendTry, hm, sendCatch]
    · simp [sendSoapRequest, sendTry, hm, sendCatch]
  · intro hm hok
    subst hok
    simp [sendSoapRequest, sendTry, hm, sendCatch]
  · intro hm hok
    subst hok
    cases hr : parseSoapBody p text none with
    | ok v => simp [sendSoapRequest, sendTry, hm, hr]
    | error e =>
      rcases parseSoapBody_error_kinds p text none e hr with ⟨m, c, he⟩ | ⟨m, he⟩
      · subst he; simp [sendSoapRequest, sendTry, hm, hr, sendCatch]
      · subst he; simp [sendSoapRequest, sendTry, hm, hr, sendCatch]

/-- Witness for C3 at concrete bodies, statuses and parsers. -/
theorem send_classification_order_witness :
    sendSoapRequest (fun _ => .ok (.obj [("Envelope", .obj [("Body", .obj [("r", .num 1)])])]))
      (.response false 503 "<HTML><a href=\"/wartung/index.html\">") =
      .error (.maintenance "FinanzOnline is in maintenance mode.") ∧
    sendSoapRequest (fun _ => .ok (.obj [("Envelope", .obj [("Body", .obj [("r", .num 1)])])]))
      (.response false 503 "<HTML><a href=\"/wartung/index.html\">") =
      sendSoapRequest (fun _ => .error "parser crash")
        (.response false 503 "<HTML><a href=\"/wartung/index.html\">") ∧
    sendSoapRequest (fun _ => .ok (.obj [("Envelope", .obj [("Body", .obj [("r", .num 1)])])]))
      (.response false 500 "<xml/>") =
      .error (.network ("SOAP request failed with status " ++ toString 500) none) ∧
    sendSoapRequest (fun _ => .ok (.obj [("Envelope", .obj [("Body", .obj [("r", .num 1)])])]))
      (.response true 200 "<xml/>") =
      parseSoapBody (fun _ => .ok (.obj [("Envelope", .obj [("Body", .obj [("r", .num 1)])])]))
        "<xml/>" none := by
  refine ⟨?_, ?_, ?_, ?_⟩
  · exact ((send_classification_order
      (fun _ => .ok (.obj [("Envelope", .obj [("Body", .obj [("r", .num 1)])])]))
      (fun _ => .error "parser crash") false 503
      "<HTML><a href=\"/wartung/index.html\">").1 (by decide)).1
  · exact ((send_classification_order
      (fun _ => .ok (.obj [("Envelope", .obj [("Body", .obj [("r", .num 1)])])]))
      (fun _ => .error "parser crash") false 503
      "<HTML><a href=\"/wartung/index.html\">").1 (by decide)).2
  · exact (send_classification_order
      (fun _ => .ok (.obj [("Envelope", .obj [("Body", .obj [("r", .num 1)])])]))
      (fun _ => .error "parser crash") false 500 "<xml/>").2.1 (by decide) rfl
  · exact (send_classification_order
      (fun _ => .ok (.obj [("Envelope", .obj [("Body", .obj [("r", .num 1)])])]))
      (fun _ => .error "parser crash") true 200 "<xml/>").2.2 (by decide) rfl

/-- C6: an error thrown by the underlying network call is rewrapped as a
network-class error — a timeout abort (`AbortError`) as the timeout
network error carrying the original cause, anything else as a generic
network error with the cause — while the four domain error kinds raised
inside the try block (maintenance, malformed-response, protocol-fault,
network) are re-raised by the catch translation unchanged, never
double-wrapped. -/
theorem transport_error_wrapping (p : String → Except String JsVal) (e : RawError) :
    (e.name = "AbortError" →
      sendSoapRequest p (.thrown e) = .error (.network "SOAP request timed out" (some e))) ∧
    (e.name ≠ "AbortError" →
      sendSoapRequest p (.thrown e) = .error (.network "SOAP request failed" (some e))) ∧
    (∀ m, sendCatch (.inl (.maintenance m)) = .maintenance m) ∧
    (∀ m s, sendCatch (.inl (.invalidXml m s)) = .invalidXml m s) ∧
    (∀ m c, sendCatch (.inl (.soapFault m c)) = .soapFault m c) ∧
    (∀ m c, sendCatch (.inl (.network m c)) = .network m c) := by
  refine ⟨?_, ?_, fun m => rfl, fun m s => rfl, fun m c => rfl, fun m c => rfl⟩
  · intro h
    simp [sendSoapRequest, sendTry, sendCatch, h]
  · intro h
    simp [sendSoapRequest, sendTry, sendCatch, h]

/-- Witness for C6 at concrete raw errors. -/
theorem transport_error_wrapping_witness :
    sendSoapRequest (fun _ => .error "e") (.thrown ⟨"AbortError", "aborted"⟩) =
      .error (.network "SOAP request timed out" (some ⟨"AbortError", "aborted"⟩)) ∧
    sendSoapRequest (fun _ => .error "e") (.thrown ⟨"TypeError", "fetch failed"⟩) =
      .error (.network "SOAP request failed" (some ⟨"TypeError", "fetch failed"⟩)) :=
  ⟨(transport_error_wrapping (fun _ => .error "e") ⟨"AbortError", "aborted"⟩).1 rfl,
   (transport_error_wrapping (fun _ => .error "e") ⟨"TypeError", "fetch failed"⟩).2.1 (by decide)⟩


/-- C5: classification of `parseSoapBody` is exclusive: a parse result
whose body holds a structured fault section always fails with the
protocol-fault error (carrying the fault message and, when a string, the
fault code), never with the malformed-response error; a result with no
body element or a non-structured body always fails with the
malformed-response error carrying the text excerpt; and every successful
result is the value under the expected payload key if one was supplied,
else under the first non-fault key of the body. -/
theorem parse_classification (p : String → Except String JsVal) (xml : String) (ek : Option String) :
    (∀ parsed faultFields, p xml = .ok parsed →
      jsTruthy (jsGet (jsGet parsed "Envelope") "Body") = true →
      jsIsObjectType (jsGet (jsGet parsed "Envelope") "Body") = true →
      jsGet (jsGet (jsGet parsed "Envelope") "Body") "Fault" = .obj faultFields →
      parseSoapBody p xml ek =
        .error (.soapFault (faultMessageOf (.obj faultFields)) (faultCodeOf (.obj faultFields))) ∧
      (∀ m s, parseSoapBody p xml ek ≠ .error (.invalidXml m s))) ∧
    (∀ parsed, p xml = .ok parsed →
      (jsTruthy (jsGet (jsGet parsed "Envelope") "Body") = false ∨
       jsIsObjectType (jsGet (jsGet parsed "Envelope") "Body") = false) →
      parseSoapBody p xml ek = .error (.invalidXml "SOAP response missing Body" (strExcerpt xml))) ∧
    (∀ v, parseSoapBody p xml ek = .ok v →
      ∃ parsed, p xml = .ok parsed ∧
        ((∀ k, ek = some k → v = jsGet (jsGet (jsGet parsed "Envelope") "Body") k) ∧
         (ek = none → ∃ k0,
           ((jsKeys (jsGet (jsGet parsed "Envelope") "Body")).filter
             (fun key => key ≠ "Fault")).head? = some k0 ∧
           v = jsGet (jsGet (jsGet parsed "Envelope") "Body") k0))) := by
  refine ⟨?_, ?_, ?_⟩
  · intro parsed faultFields hp htr hobj hfault
    have hot : jsTruthy (JsVal.obj faultFields) = true := rfl
    have heq : parseSoapBody p xml ek =
        .error (.soapFault (faultMessageOf (.obj faultFields)) (faultCodeOf (.obj faultFields))) := by
      simp [parseSoapBody, hp, htr, hobj, hfault, hot]
    refine ⟨heq, ?_⟩
    intro m s hcontra
    rw [heq] at hcontra
    exact absurd hcontra (by simp)
  · intro parsed hp hbad
    rcases hbad with h | h <;> simp [parseSoapBody, hp, h]
  · intro v hv
    cases hp : p xml with
    | error msg =>
      unfold parseSoapBody at hv
      rw [hp] at hv
      exact Except.noConfusion hv
    | ok parsed =>
      refine ⟨parsed, rfl, ?_, ?_⟩
      · intro k hek
        subst hek
        unfold parseSoapBody at hv
        rw [hp] at hv
        simp only [] at hv
        split at hv
        · exact Except.noConfusion hv
        · split at hv
          · exact Except.noConfusion hv
          · split at hv
            · exact Except.noConfusion hv
            · injection hv with h1
              exact h1.symm
      · intro hek
        subst hek
        unfold parseSoapBody at hv
        rw [hp] at hv
        simp only [] at hv
        split at hv
        · exact Except.noConfusion hv
        · split at hv
          · exact Except.noConfusion hv
          · cases hh : ((jsKeys (jsGet (jsGet parsed "Envelope") "Body")).filter
              (fun key => key ≠ "Fault")).head? with
            | none =>
              rw [hh] at hv
              exact Except.noConfusion hv
            | some k0 =>
              rw [hh] at hv
              split at hv
              · exact Except.noConfusion hv
              · rename_i content heq
                injection heq with hkeq
                subst hkeq
                split at hv
                · exact Except.noConfusion hv
                · injection hv with h1
                  exact ⟨k0, rfl, h1.symm⟩

/-- Witness for C5: fault, missing-body and success cases concretely. -/
theorem parse_classification_witness :
    parseSoapBody
      (fun _ => .ok (.obj [("Envelope", .obj [("Body", .obj [("Fault",
        .obj [("faultstring", .str "bad"), ("faultcode", .str "soap:Server")])])])]))
      "x" none =
      .error (.soapFault "bad" (some "soap:Server")) ∧
    parseSoapBody (fun _ => .ok (.obj [("other", .num 1)])) "y" none =
      .error (.invalidXml "SOAP response missing Body" "y") ∧
    (∃ parsed,
      (fun _ : String => (Except.ok (JsVal.obj [("Envelope", .obj [("Body",
        .obj [("loginResponse", .str "tok")])])]) : Except String JsVal)) "z" = .ok parsed ∧
      ((∀ k, (none : Option String) = some k →
        JsVal.str "tok" = jsGet (jsGet (jsGet parsed "Envelope") "Body") k) ∧
       ((none : Option String) = none → ∃ k0,
         ((jsKeys (jsGet (jsGet parsed "Envelope") "Body")).filter
           (fun key => key ≠ "Fault")).head? = some k0 ∧
         JsVal.str "tok" = jsGet (jsGet (jsGet parsed "Envelope") "Body") k0))) := by
  refine ⟨?_, ?_, ?_⟩
  · exact ((parse_classification
      (fun _ => .ok (.obj [("Envelope", .obj [("Body", .obj [("Fault",
        .obj [("faultstring", .str "bad"), ("faultcode", .str "soap:Server")])])])]))
      "x" none).1
      (.obj [("Envelope", .obj [("Body", .obj [("Fault",
        .obj [("faultstring", .str "bad"), ("faultcode", .str "soap:Server")])])])])
      [("faultstring", .str "bad"), ("faultcode", .str "soap:Server")]
      rfl rfl rfl rfl).1
  · exact (parse_classification (fun _ => .ok (.obj [("other", .num 1)])) "y" none).2.1
      (.obj [("other", .num 1)]) rfl (Or.inl rfl)
  · exact (parse_classification
      (fun _ : String => (Except.ok (JsVal.obj [("Envelope", .obj [("Body",
        .obj [("loginResponse", .str "tok")])])]) : Except String JsVal))
      "z" none).2.2 (.str "tok") rfl

end Fon
